import Mathlib

/-!
Verification development for the terminal AI assistant repository.

The definitions below are a shallow embedding, translated from the Python
sources:
  src/config/settings.py   (pricing table, safety limits)
  src/main.py              (calculate_cost, process_question conversation loop)
  src/services/openai_service.py (process_function_calls)
  src/tools/terminal.py    (classify_command_risk, execute_command)

Modelling conventions:
  - Python float dollar amounts are modelled as exact rationals.
  - Python token counts are natural numbers.
  - The model endpoint is an oracle: a function from the (1-based) iteration
    number to the response received in that iteration.
  - Console rendering is modelled as an event trace; file logging and the
    cosmetic Rich panels that carry no decision-relevant data are omitted.
  - Python re.search over the fixed pattern set of terminal.py is modelled by
    a small regular-expression engine (Brzozowski derivatives) covering
    exactly the constructs those patterns use, with IGNORECASE semantics.
-/

namespace AITool

/-! ## Cost accountant (src/config/settings.py, src/main.py calculate_cost) -/

/-- Usage counters reported by one API response (getattr defaults of 0 are
represented by the fields themselves; absent usage objects are `Option`). -/
structure Usage where
  input_tokens : Nat
  output_tokens : Nat
  input_tokens_cached : Nat
  reasoning_tokens : Nat
deriving DecidableEq, Repr

/-- Per-million-token prices for one model, from MODEL_PRICING. -/
structure Pricing where
  input : ℚ
  output : ℚ
  cached : ℚ
deriving DecidableEq, Repr

/-- settings.py DEFAULT_MODEL. -/
def DEFAULT_MODEL : String := "gpt-5.1"

/-- settings.py MODEL_PRICING, floats rendered as exact rationals
(1.25 = 5/4, 0.125 = 1/8, 0.25 = 1/4, 0.025 = 1/40, 0.05 = 1/20,
0.40 = 2/5, 0.005 = 1/200). -/
def MODEL_PRICING : List (String × Pricing) :=
  [("gpt-5.1", ⟨5/4, 10, 1/8⟩),
   ("gpt-5", ⟨5/4, 10, 1/8⟩),
   ("gpt-5-mini", ⟨1/4, 2, 1/40⟩),
   ("gpt-5-nano", ⟨1/20, 2/5, 1/200⟩)]

/-- settings.py safety limits. -/
def MAX_TOOL_CALLS_PER_REQUEST : Nat := 20

/-- settings.py MAX_ITERATIONS. -/
def MAX_ITERATIONS : Nat := 10

/-- settings.py COST_WARNING_THRESHOLD (0.50 dollars). -/
def COST_WARNING_THRESHOLD : ℚ := 1/2

/-- settings.py MAX_COST_PER_REQUEST (2.00 dollars). -/
def MAX_COST_PER_REQUEST : ℚ := 2

/-- main.py calculate_cost: unknown model yields 0.0; otherwise
(input - cached) * input price + cached * cached price +
(output + reasoning) * output price, each divided by 1e6. -/
def calculate_cost (usage : Usage) (model : String) : ℚ :=
  match List.lookup model MODEL_PRICING with
  | none => 0
  | some pricing =>
    let input_cost := ((usage.input_tokens : ℚ) - (usage.input_tokens_cached : ℚ))
      * pricing.input / 1000000
    let cached_cost := (usage.input_tokens_cached : ℚ) * pricing.cached / 1000000
    let output_cost := ((usage.output_tokens : ℚ) + (usage.reasoning_tokens : ℚ))
      * pricing.output / 1000000
    input_cost + cached_cost + output_cost

/-! ## Regular-expression engine for the terminal.py pattern set

Python re.search(p, s, re.IGNORECASE) is modelled as: some substring of s
is matched by p. Character classes are predicates; IGNORECASE literals
compare lower-cased characters. Python `.` matches any character except a
newline. -/

/-- Regular expressions over characters; `chr` carries a character-class
predicate. -/
inductive RE where
| emp : RE
| eps : RE
| chr (p : Char → Bool) : RE
| alt (a b : RE) : RE
| cat (a b : RE) : RE
| star (a : RE) : RE

/-- Whether a regular expression accepts the empty string. -/
def RE.nullable : RE → Bool
  | .emp => false
  | .eps => true
  | .chr _ => false
  | .alt a b => a.nullable || b.nullable
  | .cat a b => a.nullable && b.nullable
  | .star _ => true

/-- Brzozowski derivative with respect to one character. -/
def RE.deriv : RE → Char → RE
  | .emp, _ => .emp
  | .eps, _ => .emp
  | .chr p, c => if p c then .eps else .emp
  | .alt a b, c => .alt (a.deriv c) (b.deriv c)
  | .cat a b, c =>
    if a.nullable then .alt (.cat (a.deriv c) b) (b.deriv c)
    else .cat (a.deriv c) b
  | .star a, c => .cat (a.deriv c) (.star a)

/-- Does the expression match some initial segment of the character list? -/
def RE.matchesHead : RE → List Char → Bool
  | r, [] => r.nullable
  | r, c :: cs => r.nullable || (r.deriv c).matchesHead cs

/-- Python re.search: does the expression match anywhere in the list? -/
def research (r : RE) : List Char → Bool
  | [] => r.nullable
  | c :: cs => r.matchesHead (c :: cs) || research r cs

/-- Case-insensitive literal character (re.IGNORECASE). -/
def ci (c : Char) : RE := .chr (fun x => x.toLower == c.toLower)

/-- Case-insensitive literal string. -/
def lit (s : String) : RE := s.data.foldr (fun c acc => .cat (ci c) acc) .eps

/-- Python regex \s (ASCII whitespace). -/
def isSpaceChar (c : Char) : Bool :=
  c == ' ' || c == '\t' || c == '\n' || c == '\x0d' || c == '\x0b' || c == '\x0c'

/-- One or more repetitions. -/
def rplus (r : RE) : RE := .cat r (.star r)

/-- Regex \s+. -/
def ws1 : RE := rplus (.chr isSpaceChar)

/-- Regex \s*. -/
def wsStar : RE := .star (.chr isSpaceChar)

/-- Python regex dot: any character except a newline; `.*`. -/
def anyStar : RE := .star (.chr (fun c => c != '\n'))

/-- Character class [rf] under IGNORECASE. -/
def rfClass : RE := .chr (fun c => c.toLower == 'r' || c.toLower == 'f')

/-- The group (-[rf]+|--recursive|--force). -/
def rmFlags : RE := .alt (.cat (ci '-') (rplus rfClass)) (.alt (lit "--recursive") (lit "--force"))

/-- The group (-R|--recursive). -/
def recFlags : RE := .alt (lit "-R") (lit "--recursive")

/-- The group (sh|bash|zsh). -/
def shells : RE := .alt (lit "sh") (.alt (lit "bash") (lit "zsh"))

/-- terminal.py DANGEROUS_PATTERNS, each paired with its source text
(the text is interpolated into the risk reason). -/
def DANGEROUS_PATTERNS : List (String × RE) :=
  [("rm\\s+(-[rf]+|--recursive|--force)\\s+",
    .cat (lit "rm") (.cat ws1 (.cat rmFlags ws1))),
   ("rm\\s+.*\\s+(-[rf]+|--recursive|--force)",
    .cat (lit "rm") (.cat ws1 (.cat anyStar (.cat ws1 rmFlags)))),
   ("dd\\s+(if=|of=)",
    .cat (lit "dd") (.cat ws1 (.alt (lit "if=") (lit "of=")))),
   ("chmod\\s+(-R|--recursive)\\s+777",
    .cat (lit "chmod") (.cat ws1 (.cat recFlags (.cat ws1 (lit "777"))))),
   ("chown\\s+(-R|--recursive)",
    .cat (lit "chown") (.cat ws1 recFlags)),
   ("mkfs\\.",
    lit "mkfs."),
   ("fdisk|parted",
    .alt (lit "fdisk") (lit "parted")),
   (":\\(\\)\\\x7b\\s*:\\|:&\\s*\\\x7d;:",
    .cat (lit ":()\x7b") (.cat wsStar (.cat (lit ":|:&") (.cat wsStar (lit "\x7d;:"))))),
   ("curl\\s+.*\\|\\s*(sh|bash|zsh)",
    .cat (lit "curl") (.cat ws1 (.cat anyStar (.cat (ci '|') (.cat wsStar shells))))),
   ("wget\\s+.*\\|\\s*(sh|bash|zsh)",
    .cat (lit "wget") (.cat ws1 (.cat anyStar (.cat (ci '|') (.cat wsStar shells))))),
   ("sudo\\s+rm\\s+",
    .cat (lit "sudo") (.cat ws1 (.cat (lit "rm") ws1))),
   (">\\s*/dev/(sd[a-z]|nvme)",
    .cat (ci '>') (.cat wsStar (.cat (lit "/dev/")
      (.alt (.cat (lit "sd") (.chr (fun c => 'a' ≤ c.toLower && c.toLower ≤ 'z'))) (lit "nvme")))))]

/-- The pattern (pacman|yay)\s+(-S|-Syu|-R) used for the package-manager
check (searched with IGNORECASE). -/
def pacmanRE : RE :=
  .cat (.alt (lit "pacman") (lit "yay"))
    (.cat ws1 (.alt (lit "-S") (.alt (lit "-Syu") (lit "-R"))))

/-! ## String helpers mirroring the Python string operations -/

/-- Python re.split on the character class [|;&]: split at every occurrence
of one of the delimiter characters, keeping empty segments. -/
def pySplitDelims : List Char → List Char → List (List Char)
  | [], acc => [acc.reverse]
  | c :: cs, acc =>
    if c == '|' || c == ';' || c == '&' then acc.reverse :: pySplitDelims cs []
    else pySplitDelims cs (c :: acc)

/-- Python str.strip(): drop ASCII whitespace from both ends. -/
def pyStrip (l : List Char) : List Char :=
  ((l.dropWhile isSpaceChar).reverse.dropWhile isSpaceChar).reverse

/-- Python str.split() with no argument: whitespace-separated words,
empty words dropped. -/
def pyWords : List Char → List Char → List (List Char)
  | [], cur => if cur.isEmpty then [] else [cur.reverse]
  | c :: cs, cur =>
    if isSpaceChar c then
      if cur.isEmpty then pyWords cs [] else cur.reverse :: pyWords cs []
    else pyWords cs (c :: cur)

/-- Python substring containment (the `in` operator on str). -/
def isSubstr (needle : List Char) : List Char → Bool
  | [] => needle.isEmpty
  | c :: cs => List.isPrefixOf needle (c :: cs) || isSubstr needle cs

/-- Substring containment at the String level. -/
def strContains (needle hay : String) : Bool := isSubstr needle.data hay.data

/-! ## Command risk classifier (src/tools/terminal.py classify_command_risk) -/

/-- A single-quote character, used when rebuilding the Python f-strings. -/
def sq : String := String.singleton (Char.ofNat 39)

/-- Wrap a string in single quotes, as the Python reasons do. -/
def q (s : String) : String := sq ++ s ++ sq

/-- terminal.py INTERACTIVE_COMMANDS. -/
def INTERACTIVE_COMMANDS : List String :=
  ["vim", "vi", "nvim",
   "nano", "emacs", "pico",
   "less", "more",
   "top", "htop", "btop",
   "man",
   "python", "python3", "ipython",
   "node",
   "irb", "pry",
   "mysql", "psql", "sqlite3"]

/-- Reason string for interactive editors. -/
def editorReason (w : String) : String :=
  "Interactive editor " ++ q w ++ " detected. Use " ++ q "sed" ++ ", "
    ++ q "echo >>" ++ ", or " ++ q "cat >" ++ " instead."

/-- Reason string for interactive pagers. -/
def pagerReason (w : String) : String :=
  "Interactive pager " ++ q w ++ " detected. Use " ++ q "cat" ++ ", "
    ++ q "head" ++ ", or " ++ q "tail" ++ " instead."

/-- Reason string for interactive monitors. -/
def monitorReason (w : String) : String :=
  "Interactive monitor " ++ q w ++ " detected. Use " ++ q "ps aux" ++ ", "
    ++ q "pgrep" ++ ", or " ++ q "systemctl status" ++ " instead."

/-- Reason string for the manual page viewer. -/
def manReason (w : String) : String :=
  "Interactive manual " ++ q w ++ " detected. Use online documentation or "
    ++ q ("man " ++ w ++ " | cat") ++ " for non-interactive viewing."

/-- Reason string for interactive interpreters. -/
def interpReason (w : String) : String :=
  "Interactive interpreter " ++ q w ++ " detected. Use " ++ q "-c"
    ++ " flag for non-interactive execution."

/-- Reason string for interactive database shells. -/
def dbReason (w : String) : String :=
  "Interactive database shell " ++ q w ++ " detected. Use " ++ q "-c"
    ++ " or " ++ q "-e" ++ " flag for non-interactive execution."

/-- Reason string for interactive Ruby shells. -/
def rubyReason (w : String) : String :=
  "Interactive Ruby shell " ++ q w ++ " detected. Use " ++ q "ruby -e"
    ++ " for non-interactive execution."

/-- Reason string for the package-manager check. -/
def pacmanReason : String :=
  "Package manager command detected without --noconfirm flag. Add --noconfirm for non-interactive execution."

/-- The per-segment body of the interactive-command loop: computes the
leading word (skipping a leading sudo) and runs the elif chain. A word that
is in INTERACTIVE_COMMANDS but matches no branch (for example ipython, or
python with a -c flag in the segment) falls through and yields none, as the
Python loop continues. -/
def partVerdict (part : List Char) : Option String :=
  let swords := pyWords (pyStrip part) []
  let cmd_word0 : String := match swords with
    | [] => ""
    | w :: _ => String.mk w
  let cmd_word : String :=
    if cmd_word0 == "sudo" && swords.length > 1 then
      match swords with
      | _ :: w :: _ => String.mk w
      | _ => cmd_word0
    else cmd_word0
  if cmd_word ∈ INTERACTIVE_COMMANDS then
    if cmd_word ∈ ["vim", "vi", "nvim", "nano", "emacs", "pico"] then
      some (editorReason cmd_word)
    else if cmd_word ∈ ["less", "more"] then
      some (pagerReason cmd_word)
    else if cmd_word ∈ ["top", "htop", "btop"] then
      some (monitorReason cmd_word)
    else if cmd_word ∈ ["man"] then
      some (manReason cmd_word)
    else if cmd_word ∈ ["python", "python3", "node"]
        && !(isSubstr "-c".data part) && !(isSubstr "-e".data part) then
      some (interpReason cmd_word)
    else if cmd_word ∈ ["mysql", "psql", "sqlite3"]
        && !(isSubstr "-c".data part) && !(isSubstr "-e".data part) then
      some (dbReason cmd_word)
    else if cmd_word ∈ ["irb", "pry"] then
      some (rubyReason cmd_word)
    else none
  else none

/-- The interactive-command loop over the segments of the command. -/
def interactiveScan : List (List Char) → Option String
  | [] => none
  | p :: ps =>
    match partVerdict p with
    | some reason => some reason
    | none => interactiveScan ps

/-- terminal.py classify_command_risk. Returns (risk level, reason):
dangerous-pattern match first (level "risky"), then interactive commands,
then the package-manager check, else "safe". -/
def classify_command_risk (command : String) : String × Option String :=
  match DANGEROUS_PATTERNS.find? (fun p => research p.2 command.data) with
  | some p => ("risky", some ("Matches dangerous pattern: " ++ p.1))
  | none =>
    match interactiveScan (pySplitDelims command.data []) with
    | some reason => ("interactive", some reason)
    | none =>
      if research pacmanRE command.data
          && !(strContains "--noconfirm" command) && !(strContains "--no-confirm" command) then
        ("interactive", some pacmanReason)
      else ("safe", none)

/-! ## Command execution (src/tools/terminal.py execute_command)

The operating-system interactions are an oracle environment: directory
lookup, the confirmation prompt answer, and the outcome of the single
possible subprocess spawn. The returned record carries, besides the result
string, the list of confirmation prompts shown, the list of subprocess
spawns (command, working directory, timeout passed to communicate), and the
clamped timeout value. Writing the append-only command log file is omitted:
it feeds no return value and its failures are swallowed by the code. -/

/-- Outcome of the spawned subprocess, as seen by execute_command. -/
inductive ProcOutcome where
| completed (stdout stderr : String) (exit_code : Int)
| timedOut
| interrupted
| notFound
| permissionDenied
| failed (msg : String)

/-- Oracle environment for execute_command. durationStr stands for the
wall-clock duration already formatted with two decimals (real time is not
modelled). -/
structure ExecEnv where
  originalCwd : Option String
  cwd : String
  expanduser : String → String
  isdir : String → Bool
  promptAnswer : Bool
  run : ProcOutcome
  durationStr : String

/-- Result of one execute_command call, with its observable side effects. -/
structure ExecOut where
  result : String
  prompts : List String
  spawns : List (String × String × Int)
  effTimeout : Int

/-- Python str formatting of an optional value (None prints as "None";
interactive and risky classifications always carry a reason). -/
def optStr : Option String → String
  | some s => s
  | none => "None"

/-- Python slicing s[:n]: the first n characters. -/
def pyTake (s : String) (n : Nat) : String := String.mk (s.data.take n)

/-- The 80-dash separator line. -/
def dashes80 : String := String.mk (List.replicate 80 '-')

/-- The truncation notice appended to an over-long stream. -/
def trunc_notice : String := "\n\n[Output truncated at 10,000 characters]"

/-- Working-directory resolution: None falls back to ORIGINAL_CWD or the
current directory; a given directory is expanded and must exist. -/
def resolve_working_dir (env : ExecEnv) (working_dir : Option String) : Option String :=
  match working_dir with
  | none => some (env.originalCwd.getD env.cwd)
  | some w => if env.isdir (env.expanduser w) then some (env.expanduser w) else none

/-- The subprocess part of execute_command: formats the result for each
outcome of the spawned process, truncating each stream at 10000 characters
on the completed path. -/
def run_subprocess (env : ExecEnv) (command wd : String) (t : Int) : String :=
  match env.run with
  | .completed sout serr ec =>
    let stdout := if sout.length > 10000 then pyTake sout 10000 else sout
    let stderr := if serr.length > 10000 then pyTake serr 10000 else serr
    let output := "✓ Command executed successfully\n\n"
      ++ "Command: " ++ command ++ "\n"
      ++ "Working directory: " ++ wd ++ "\n"
      ++ "Exit code: " ++ toString ec ++ "\n"
      ++ "Duration: " ++ env.durationStr ++ "s\n"
      ++ dashes80 ++ "\n\n"
    let output := output ++
      (if stdout = "" then "" else
        "STDOUT:\n" ++ stdout ++ (if sout.length > 10000 then trunc_notice else "") ++ "\n\n")
    let output := output ++
      (if stderr = "" then "" else
        "STDERR:\n" ++ stderr ++ (if serr.length > 10000 then trunc_notice else "") ++ "\n\n")
    let output := output ++
      (if stdout = "" ∧ stderr = "" then "(No output)\n\n" else "")
    if ec ≠ 0 then
      (output.replace "✓ Command executed successfully" "⚠️  Command completed with errors")
        ++ "💡 Note: Command exited with code " ++ toString ec
        ++ ", which typically indicates an error.\n"
    else output
  | .timedOut =>
    "❌ Error: Command timed out\n\nCommand: " ++ command ++ "\nTimeout: " ++ toString t
      ++ "s\n\n💡 Suggestion: Increase timeout value or run command in background."
  | .interrupted =>
    "⚠️  Command interrupted by user (Ctrl+C)\n\nCommand: " ++ command ++ "\nDuration: "
      ++ env.durationStr ++ "s\n\n💡 The command was terminated gracefully."
  | .notFound =>
    "❌ Error: Command not found\n\nCommand: " ++ command
      ++ "\n\n💡 Suggestion: Check if the command is installed and available in PATH."
  | .permissionDenied =>
    "❌ Error: Permission denied\n\nCommand: " ++ command
      ++ "\n\n💡 Suggestion: You may need to use " ++ q "sudo" ++ " or check file permissions."
  | .failed msg =>
    "❌ Error: Command execution failed\n\nCommand: " ++ command ++ "\nError: " ++ msg
      ++ "\n\n💡 Suggestion: Check command syntax and try again."

/-- A call that reached the subprocess spawn. -/
def exec_spawned (env : ExecEnv) (command wd : String) (t : Int) (prompts : List String) : ExecOut :=
  { result := run_subprocess env command wd t,
    prompts := prompts, spawns := [(command, wd, t)], effTimeout := t }

/-- terminal.py execute_command: clamp the timeout, resolve the working
directory, classify the command, refuse interactive commands outright,
require prompt confirmation for risky commands, then spawn. -/
def execute_command (env : ExecEnv) (command : String) (working_dir : Option String)
    (timeout : Option Int) : ExecOut :=
  let t : Int := match timeout with
    | none => 30
    | some v => if v > 300 then 300 else v
  match resolve_working_dir env working_dir with
  | none =>
    { result := "❌ Error: Working directory does not exist\n\nDirectory: "
        ++ env.expanduser (working_dir.getD "")
        ++ "\n\n💡 Suggestion: Check the path and ensure the directory exists.",
      prompts := [], spawns := [], effTimeout := t }
  | some wd =>
    let rc := classify_command_risk command
    if rc.1 = "interactive" then
      { result := "❌ Error: Interactive command detected\n\nCommand: " ++ command
          ++ "\n\nReason: " ++ optStr rc.2
          ++ "\n\n💡 This command requires user input during execution, which is not supported. Please use the suggested non-interactive alternative.",
        prompts := [], spawns := [], effTimeout := t }
    else if rc.1 = "risky" then
      if env.promptAnswer then exec_spawned env command wd t [command]
      else
        { result := "❌ Command cancelled by user\n\nCommand: " ++ command
            ++ "\n\nReason: " ++ optStr rc.2
            ++ "\n\n💡 The command was not executed for safety reasons.",
          prompts := [command], spawns := [], effTimeout := t }
    else exec_spawned env command wd t []

/-! ## Conversation loop (src/main.py process_question,
src/services/openai_service.py process_function_calls)

The model endpoint is an oracle from the 1-based iteration number to the
response received in that iteration. Tool handlers are an oracle map from
tool name to an optional behavior on the raw argument string (the dict
get_available_tools builds). The JSON decode inside the analyze_image
special case is an oracle as well. process_function_calls is modelled as
invoked by the loop, where the dangerous_commands_confirmed argument is
always the default empty mapping, under which its pre-confirmation branch
never fires. Rich rendering is kept as an event trace where the rendered
data is decision relevant (warnings and ceiling errors); the purely
cosmetic panels, the executed-commands display list and the citation
extraction are omitted. -/

/-- Output items of one model response (the duck-typed item.type dispatch,
decoded as a tagged union). -/
inductive Item where
| function_call (name call_id arguments : String)
| web_search_call
| message
| reasoning
| other (t : String)
deriving DecidableEq, Repr

/-- One model response: ordered output items, optional usage counters, and
the convenience output_text field. -/
structure Response where
  output : List Item
  usage : Option Usage
  output_text : String
deriving DecidableEq, Repr

/-- Transcript entries of the input_list. -/
inductive Entry where
| sysMsg (content : String)
| userMsg (content : String)
| outItem (it : Item)
| fnOutput (call_id output : String)
| imageMsg (text : String)
deriving DecidableEq, Repr

/-- Console events that carry decision-relevant data. -/
inductive Ev where
| warnAskBlocked
| costWarn (c : ℚ)
| costError (c : ℚ)
| toolCallError (n : Nat)
| maxIterWarn
deriving DecidableEq, Repr

/-- The two exceptions process_question raises on a ceiling breach. -/
inductive AbortErr where
| costLimit (c : ℚ)
| toolCalls (n : Nat)
deriving DecidableEq, Repr

/-- The four ceilings from settings.py, as one configuration record. -/
structure Config where
  max_tool_calls_per_request : Nat
  max_iterations : Nat
  cost_warning_threshold : ℚ
  max_cost_per_request : ℚ
deriving DecidableEq, Repr

/-- The configuration shipped in settings.py. -/
def defaultConfig : Config :=
  ⟨MAX_TOOL_CALLS_PER_REQUEST, MAX_ITERATIONS, COST_WARNING_THRESHOLD, MAX_COST_PER_REQUEST⟩

/-- Decoded result of the analyze_image handler (the json.loads of its
result inside process_function_calls, as an oracle). -/
inductive AnalyzeOutcome where
| ok (question : Option String) (source : String) (token_cost : Nat)
| fail (error : String) (suggestion : String)

/-- The handler-name set built by get_available_tools: base handlers, the
image tools when a BFL key is present, and execute_command only outside
ask mode. -/
def handler_names (bfl ask_mode : Bool) : List String :=
  ["fetch_webpage", "analyze_image", "execute_python"]
    ++ (if bfl then ["generate_image", "edit_image"] else [])
    ++ (if ask_mode then [] else ["execute_command"])

/-- The function_handlers dict of get_available_tools, with the individual
tool behaviors abstracted as an oracle. -/
def get_function_handlers (bfl ask_mode : Bool) (impl : String → String → String) :
    String → Option (String → String) :=
  fun name => if name ∈ handler_names bfl ask_mode then some (impl name) else none

/-- process_function_calls, one item: a function_call with a known handler
is executed and resolved; with an unknown handler nothing is appended; the
analyze_image result is decoded and emitted as a user image message plus an
acknowledging function output. Returns (entries appended, handlers
executed as (name, call_id)). -/
def processItem (handlers : String → Option (String → String))
    (aparse : String → AnalyzeOutcome) : Item → List Entry × List (String × String)
  | .function_call name call_id arguments =>
    match handlers name with
    | none => ([], [])
    | some handler =>
      let result := handler arguments
      if name = "analyze_image" then
        match aparse result with
        | .ok question source token_cost =>
          ([.imageMsg (question.getD ("What" ++ sq ++ "s in this image?")),
            .fnOutput call_id ("✓ Image loaded successfully from " ++ source
              ++ " (estimated " ++ toString token_cost ++ " tokens). Analyzing...")],
           [(name, call_id)])
        | .fail error suggestion =>
          ([.fnOutput call_id ("❌ Error: " ++ error
              ++ (if suggestion = "" then "" else "\n\n💡 " ++ suggestion))],
           [(name, call_id)])
      else ([.fnOutput call_id result], [(name, call_id)])
  | _ => ([], [])

/-- process_function_calls over the whole response output, in order. -/
def process_function_calls (handlers : String → Option (String → String))
    (aparse : String → AnalyzeOutcome) : List Item → List Entry × List (String × String)
  | [] => ([], [])
  | it :: rest =>
    let hd := processItem handlers aparse it
    let tl := process_function_calls handlers aparse rest
    (hd.1 ++ tl.1, hd.2 ++ tl.2)

/-- Loop state of process_question. The executed field records the handler
invocations performed so far, mirroring the calls made through
process_function_calls. -/
structure LoopSt where
  input_list : List Entry
  total_input_tokens : Nat
  total_output_tokens : Nat
  total_cached_tokens : Nat
  total_reasoning_tokens : Nat
  total_cost : ℚ
  tool_call_count : Nat
  tool_calls_made : List String
  trace : List Ev
  executed : List (String × String)
deriving DecidableEq, Repr

/-- Outcome of the usage/cost phase of one iteration. -/
inductive CostRes where
| ok (st : LoopSt)
| abort (e : AbortErr) (st : LoopSt)
deriving Repr

/-- Usage update and cost ceiling check, performed before the response
items are appended or dispatched: no usage attribute skips the check;
otherwise accumulate, abort over the hard ceiling, warn over the warning
threshold. -/
def costPhase (cfg : Config) (st : LoopSt) (resp : Response) : CostRes :=
  match resp.usage with
  | none => .ok st
  | some u =>
    let st := { st with
      total_input_tokens := st.total_input_tokens + u.input_tokens,
      total_output_tokens := st.total_output_tokens + u.output_tokens,
      total_cached_tokens := st.total_cached_tokens + u.input_tokens_cached,
      total_reasoning_tokens := st.total_reasoning_tokens + u.reasoning_tokens,
      total_cost := st.total_cost + calculate_cost u DEFAULT_MODEL }
    if st.total_cost > cfg.max_cost_per_request then
      .abort (.costLimit st.total_cost) { st with trace := st.trace ++ [.costError st.total_cost] }
    else if st.total_cost > cfg.cost_warning_threshold then
      .ok { st with trace := st.trace ++ [.costWarn st.total_cost] }
    else .ok st

/-- The has_* flags computed while scanning one response output. -/
structure ScanFlags where
  has_function_calls : Bool
  has_web_search : Bool
  has_message : Bool
  has_reasoning : Bool
deriving DecidableEq, Repr

/-- State threaded through the item scan. -/
structure ScanSt where
  count : Nat
  made : List String
  trace : List Ev
  flags : ScanFlags
deriving DecidableEq, Repr

/-- Outcome of the item scan. -/
inductive ScanRes where
| ok (s : ScanSt)
| abort (e : AbortErr) (s : ScanSt)
deriving Repr

/-- The first for-loop over response.output: set flags, count tool calls,
and check the tool-call ceiling. An execute_command call in ask mode is
skipped after counting, bypassing the ceiling check for that item. -/
def scanItems (cfg : Config) (ask_mode : Bool) : List Item → ScanSt → ScanRes
  | [], s => .ok s
  | it :: rest, s =>
    match it with
    | .function_call name _ _ =>
      let s := { s with flags.has_function_calls := true,
                        count := s.count + 1, made := s.made ++ [name] }
      if ask_mode && name = "execute_command" then
        scanItems cfg ask_mode rest { s with trace := s.trace ++ [.warnAskBlocked] }
      else if s.count > cfg.max_tool_calls_per_request then
        .abort (.toolCalls s.count) { s with trace := s.trace ++ [.toolCallError s.count] }
      else scanItems cfg ask_mode rest s
    | .web_search_call =>
      let s := { s with flags.has_web_search := true,
                        count := s.count + 1, made := s.made ++ ["web_search"] }
      if s.count > cfg.max_tool_calls_per_request then
        .abort (.toolCalls s.count) { s with trace := s.trace ++ [.toolCallError s.count] }
      else scanItems cfg ask_mode rest s
    | .message => scanItems cfg ask_mode rest { s with flags.has_message := true }
    | .reasoning => scanItems cfg ask_mode rest { s with flags.has_reasoning := true }
    | .other _ => scanItems cfg ask_mode rest s

/-- The data process_question returns for memory storage (fields not
derivable from the loop state, such as the timestamp, are omitted). The
tools_used set is represented by a deduplicated list. -/
structure ConvData where
  response : String
  tools_used : List String
  tokens_input : Nat
  tokens_output : Nat
  tokens_cached : Nat
  tokens_reasoning : Nat
  cost : ℚ
deriving DecidableEq, Repr

/-- Outcome of one process_question run: a normal return, a raised ceiling
exception, or the NameError the code would hit if the loop body never ran
(max_iterations of zero). What the code reports is the event trace, the
exception payload (AbortErr carries exactly the data the raised message
carries: the cumulative dollar cost, or the tool-call count) and, on a
normal return only, the ConvData record with the token totals (the usage
table is printed only on normal completion); the LoopSt carried alongside
is bookkeeping of the final loop state inside the embedding, not a
reported value. -/
inductive RunOut where
| ok (d : ConvData) (st : LoopSt)
| abort (e : AbortErr) (st : LoopSt)
| pyNameError (st : LoopSt)
deriving Repr

/-- The code after the while loop: warn when the iteration budget was
reached, then extract the final response from the last response received. -/
def finishRun (cfg : Config) (iteration : Nat) (st : LoopSt) (lastResp : Option Response) : RunOut :=
  let st := if iteration ≥ cfg.max_iterations then
      { st with trace := st.trace ++ [.maxIterWarn] } else st
  match lastResp with
  | none => .pyNameError st
  | some r =>
    .ok { response := r.output_text,
          tools_used := st.tool_calls_made.dedup,
          tokens_input := st.total_input_tokens,
          tokens_output := st.total_output_tokens,
          tokens_cached := st.total_cached_tokens,
          tokens_reasoning := st.total_reasoning_tokens,
          cost := st.total_cost } st

/-- The while loop of process_question. fuel is the remaining iteration
budget (the loop is entered while iteration < max_iterations, so fuel
starts at max_iterations and iteration at 0). Each iteration: receive the
response, run the usage/cost phase, append the raw output items, scan the
items (flags, tool-call ceiling), then dispatch function calls and
continue, or continue on a search-only response, or finish. -/
def loopAux (cfg : Config) (ask_mode : Bool) (handlers : String → Option (String → String))
    (aparse : String → AnalyzeOutcome) (responses : Nat → Response) :
    Nat → Nat → LoopSt → Option Response → RunOut
  | 0, iteration, st, lastResp => finishRun cfg iteration st lastResp
  | fuel + 1, iteration, st, _ =>
    let iter := iteration + 1
    let resp := responses iter
    match costPhase cfg st resp with
    | .abort e st => .abort e st
    | .ok st =>
      let st := { st with input_list := st.input_list ++ resp.output.map Entry.outItem }
      match scanItems cfg ask_mode resp.output ⟨st.tool_call_count, st.tool_calls_made, st.trace, ⟨false, false, false, false⟩⟩ with
      | .abort e ss =>
        .abort e { st with tool_call_count := ss.count, tool_calls_made := ss.made, trace := ss.trace }
      | .ok ss =>
        let st := { st with tool_call_count := ss.count, tool_calls_made := ss.made, trace := ss.trace }
        if ss.flags.has_function_calls then
          let fo := process_function_calls handlers aparse resp.output
          loopAux cfg ask_mode handlers aparse responses fuel iter
            { st with input_list := st.input_list ++ fo.1, executed := st.executed ++ fo.2 }
            (some resp)
        else if ss.flags.has_web_search && !ss.flags.has_message then
          loopAux cfg ask_mode handlers aparse responses fuel iter st (some resp)
        else finishRun cfg iter st (some resp)

/-- The initial transcript: system prompt, persisted context, the question. -/
def initState (system_prompt : String) (context : List Entry) (question : String) : LoopSt :=
  { input_list := [.sysMsg system_prompt] ++ context ++ [.userMsg question],
    total_input_tokens := 0, total_output_tokens := 0,
    total_cached_tokens := 0, total_reasoning_tokens := 0,
    total_cost := 0, tool_call_count := 0, tool_calls_made := [],
    trace := [], executed := [] }

/-- main.py process_question, over the oracles. -/
def process_question (cfg : Config) (ask_mode : Bool)
    (handlers : String → Option (String → String)) (aparse : String → AnalyzeOutcome)
    (responses : Nat → Response) (system_prompt : String) (context : List Entry)
    (question : String) : RunOut :=
  loopAux cfg ask_mode handlers aparse responses cfg.max_iterations 0
    (initState system_prompt context question) none

/-- Projection: the loop state carried by any outcome. -/
def RunOut.state : RunOut → LoopSt
  | .ok _ st => st
  | .abort _ st => st
  | .pyNameError st => st

/-- Projection: did the run raise a ceiling exception? -/
def RunOut.isAbort : RunOut → Bool
  | .abort _ _ => true
  | _ => false

/-- Does this transcript entry resolve the given call id with a function
output? -/
def resolvesCallId (call_id : String) : Entry → Bool
  | .fnOutput c _ => c == call_id
  | _ => false

/-- Projection: the answer returned on a normal return, none otherwise. -/
def RunOut.answer : RunOut → Option String
  | .ok d _ => some d.response
  | _ => none

/-! ## Concrete scenarios used by witnesses and counterexamples -/

/-- A trivial oracle behavior for the tool handlers. -/
def demoImpl : String → String → String := fun _ _ => "ok"

/-- A trivial oracle for the analyze_image result decode. -/
def demoAparse : String → AnalyzeOutcome := fun _ => .fail "unreadable" ""

/-- Response oracle: the first response carries one execute_command tool
call; every later response is a plain terminal message. -/
def askModeResponses : Nat → Response := fun i =>
  if i = 1 then ⟨[.function_call "execute_command" "call_1" "\x7b\x7d"], none, ""⟩
  else ⟨[.message], none, "Commands are disabled in ask mode."⟩

/-- A full ask-mode run against askModeResponses, with the ask-mode handler
set (which contains no execute_command handler). -/
def askModeRun : RunOut :=
  process_question defaultConfig true (get_function_handlers false true demoImpl)
    demoAparse askModeResponses "sys" [] "q"

/-- Response oracle: every response carries one more tool call, so the loop
spends its whole iteration budget; output_text is nonempty to exhibit the
answer the code returns after the budget runs out. -/
def maxIterResponses : Nat → Response := fun i =>
  ⟨[.function_call "fetch_webpage" ("id" ++ toString i) "\x7b\x7d"], none, "partial answer"⟩

/-- A full run against maxIterResponses in normal mode with the default
configuration (iteration ceiling 10, tool-call ceiling 20). -/
def maxIterRun : RunOut :=
  process_question defaultConfig false (get_function_handlers false false demoImpl)
    demoAparse maxIterResponses "sys" [] "q"

/-- Projection: the exception carried by an aborted run. -/
def RunOut.abortErr : RunOut → Option AbortErr
  | .abort e _ => some e
  | _ => none

/-- The normal-mode handler set with trivial behaviors. -/
def normalHandlers : String → Option (String → String) :=
  get_function_handlers false false demoImpl

/-- The default configuration with the tool-call ceiling lowered to 2. -/
def toolCeilConfig : Config := { defaultConfig with max_tool_calls_per_request := 2 }

/-- Response oracle: every response carries three tool-call items. -/
def threeCallResponses : Nat → Response := fun _ =>
  ⟨[.function_call "fetch_webpage" "c1" "\x7b\x7d",
    .function_call "fetch_webpage" "c2" "\x7b\x7d",
    .function_call "fetch_webpage" "c3" "\x7b\x7d"], none, ""⟩

/-- A run with tool-call ceiling 2 against a response with three tool
calls. -/
def toolCeilRun : RunOut :=
  process_question toolCeilConfig false normalHandlers demoAparse threeCallResponses
    "sys" [] "q"

/-- Response oracle whose reported usage costs 12.50 dollars per
iteration at the default-model rates. -/
def costCeilResponses : Nat → Response := fun _ =>
  ⟨[.function_call "fetch_webpage" "c1" "\x7b\x7d"], some ⟨10000000, 0, 0, 0⟩, ""⟩

/-- An execute_command oracle environment for concrete examples. -/
def demoExecEnv : ExecEnv :=
  { originalCwd := none, cwd := "/home/user", expanduser := id,
    isdir := fun _ => true, promptAnswer := false,
    run := .completed "hello" "" 0, durationStr := "0.00" }

/-- Is this item one whose counter increment is followed by the tool-call
ceiling check? Function calls and web-search calls are; an execute_command
call in ask mode is counted but skipped past the check (the continue in
the ask-mode branch); messages and reasoning items are not counted. -/
def countedToolCall (ask_mode : Bool) : Item → Bool
  | .function_call name _ _ => !(ask_mode && name = "execute_command")
  | .web_search_call => true
  | _ => false

/-- The ask-mode handler set with trivial behaviors. -/
def askHandlers : String → Option (String → String) :=
  get_function_handlers false true demoImpl

/-- Response oracle: the first response carries three execute_command tool
calls; every later response is a terminal message. -/
def askOverCeilResponses : Nat → Response := fun i =>
  if i = 1 then
    ⟨[.function_call "execute_command" "e1" "\x7b\x7d",
      .function_call "execute_command" "e2" "\x7b\x7d",
      .function_call "execute_command" "e3" "\x7b\x7d"], none, ""⟩
  else ⟨[.message], none, "done"⟩

/-- An ask-mode run with tool-call ceiling 2 against a response carrying
three execute_command calls: all three are counted past the ceiling, but
each is exempt from the ceiling check. -/
def askOverCeilRun : RunOut :=
  process_question toolCeilConfig true askHandlers demoAparse askOverCeilResponses
    "sys" [] "q"

/-- Response oracle: every response carries one ordinary tool call and no
usage. -/
def overCeilStepResponses : Nat → Response := fun _ =>
  ⟨[.function_call "fetch_webpage" "w1" "\x7b\x7d"], none, ""⟩

/-- A loop state whose tool-call counter already sits at the default
ceiling. -/
def overCeilState : LoopSt :=
  { initState "s" [] "q" with tool_call_count := 20 }

/-! # Theorems -/

set_option maxRecDepth 8000

/-- The pricing-table entry of the default model. -/
theorem lookup_default_model : List.lookup DEFAULT_MODEL MODEL_PRICING = some ⟨5/4, 10, 1/8⟩ :=
  rfl

/-- C5: for every usage record and every model present in the pricing
table, calculate_cost equals (input - cached) times the input rate plus
cached times the cached rate plus (output + reasoning) times the output
rate, each per million tokens. -/
theorem calculate_cost_formula (u : Usage) (model : String) (p : Pricing)
    (h : List.lookup model MODEL_PRICING = some p) :
    calculate_cost u model =
      ((u.input_tokens : ℚ) - (u.input_tokens_cached : ℚ)) * p.input / 1000000
        + (u.input_tokens_cached : ℚ) * p.cached / 1000000
        + ((u.output_tokens : ℚ) + (u.reasoning_tokens : ℚ)) * p.output / 1000000 := by
  unfold calculate_cost
  rw [h]

/-- Witness for calculate_cost_formula at gpt-5.1 and a concrete usage. -/
theorem calculate_cost_formula_witness :
    List.lookup "gpt-5.1" MODEL_PRICING = some ⟨5/4, 10, 1/8⟩ ∧
    calculate_cost ⟨100, 50, 20, 10⟩ "gpt-5.1" =
      ((100 : ℚ) - (20 : ℚ)) * (5/4) / 1000000 + (20 : ℚ) * (1/8) / 1000000
        + ((50 : ℚ) + (10 : ℚ)) * 10 / 1000000 :=
  ⟨rfl, calculate_cost_formula ⟨100, 50, 20, 10⟩ "gpt-5.1" ⟨5/4, 10, 1/8⟩ rfl⟩

/-- C6 counterexample: the unknown-model case is not flagged distinctly
from a genuine zero-cost result. calculate_cost returns the bare rational
0 for an unknown model carrying a million tokens of usage, and that return
value is identical to the result for a known model with zero usage; the
function exposes no other output. -/
theorem calculate_cost_unknown_not_flagged :
    calculate_cost ⟨1000000, 1000000, 0, 0⟩ "gpt-4o" = 0 ∧
    calculate_cost ⟨0, 0, 0, 0⟩ "gpt-5.1" = 0 ∧
    calculate_cost ⟨1000000, 1000000, 0, 0⟩ "gpt-4o" = calculate_cost ⟨0, 0, 0, 0⟩ "gpt-5.1" ∧
    List.lookup "gpt-4o" MODEL_PRICING = none := by
  have h4 : List.lookup "gpt-4o" MODEL_PRICING = none := rfl
  have hz : calculate_cost ⟨1000000, 1000000, 0, 0⟩ "gpt-4o" = 0 := by
    unfold calculate_cost; rw [h4]
  have hz2 : calculate_cost ⟨0, 0, 0, 0⟩ "gpt-5.1" = 0 := by
    unfold calculate_cost
    simp only [show List.lookup "gpt-5.1" MODEL_PRICING = some ⟨5/4, 10, 1/8⟩ from rfl]
    norm_num
  exact ⟨hz, hz2, hz.trans hz2.symm, h4⟩

/-- C6 amended: a model absent from the pricing table contributes exactly
zero, and the result is indistinguishable from a genuine zero-cost result
(it equals the cost of zero usage on the default model). -/
theorem calculate_cost_unknown_zero (u : Usage) (model : String)
    (h : List.lookup model MODEL_PRICING = none) :
    calculate_cost u model = 0 ∧
    calculate_cost u model = calculate_cost ⟨0, 0, 0, 0⟩ DEFAULT_MODEL := by
  have h1 : calculate_cost u model = 0 := by unfold calculate_cost; rw [h]
  have h2 : calculate_cost ⟨0, 0, 0, 0⟩ DEFAULT_MODEL = 0 := by
    unfold calculate_cost
    simp only [lookup_default_model]
    norm_num
  exact ⟨h1, h1.trans h2.symm⟩

/-- Witness for calculate_cost_unknown_zero at a concrete unknown model. -/
theorem calculate_cost_unknown_zero_witness :
    calculate_cost ⟨7, 7, 7, 7⟩ "gpt-4" = 0 ∧
    calculate_cost ⟨7, 7, 7, 7⟩ "gpt-4" = calculate_cost ⟨0, 0, 0, 0⟩ DEFAULT_MODEL :=
  calculate_cost_unknown_zero ⟨7, 7, 7, 7⟩ "gpt-4" rfl

/-- C7: sudo pacman -Syu without a non-interactive flag is classified
interactive with the reason citing the missing --noconfirm flag (the
reason string contains "--noconfirm"); with --noconfirm it is safe. -/
theorem classify_pacman_examples :
    classify_command_risk "sudo pacman -Syu" = ("interactive", some pacmanReason)
    ∧ classify_command_risk "sudo pacman -Syu --noconfirm" = ("safe", none)
    ∧ strContains "--noconfirm" pacmanReason = true := by
  decide

/-- C1, behavior at the failing input: in ask mode, a response carrying an
execute_command tool call with call id call_1 leads to no execution (the
executed trace stays empty) and the warning event, but the transcript never
receives a function output resolving call_1 — the handler map contains no
execute_command entry, so process_function_calls appends nothing for the
item — even though the raw tool-call item itself was appended and a further
model round-trip took place. The call id is silently dropped, contradicting
the claimed resolving refusal result. -/
theorem ask_mode_call_id_dropped :
    askModeRun.isAbort = false
    ∧ askModeRun.state.executed = []
    ∧ Entry.outItem (.function_call "execute_command" "call_1" "\x7b\x7d") ∈ askModeRun.state.input_list
    ∧ askModeRun.state.input_list.any (resolvesCallId "call_1") = false
    ∧ Ev.warnAskBlocked ∈ askModeRun.state.trace := by
  decide

/-- The cost of ten million uncached input tokens at the default-model
rate. -/
theorem calculate_cost_ten_million :
    calculate_cost ⟨10000000, 0, 0, 0⟩ DEFAULT_MODEL = 25/2 := by
  unfold calculate_cost
  simp only [lookup_default_model]
  norm_num

/-- C2: in any iteration whose response reports usage pushing the
cumulative cost over the hard ceiling, the loop aborts with the cost-limit
exception before dispatching anything: the transcript is unchanged (no
output item of the response is appended), no handler is executed, and the
cost error event (reporting the cumulative cost) is traced. -/
theorem cost_ceiling_aborts_before_dispatch
    (cfg : Config) (ask_mode : Bool) (handlers : String → Option (String → String))
    (aparse : String → AnalyzeOutcome) (responses : Nat → Response)
    (fuel iteration : Nat) (st : LoopSt) (lastResp : Option Response) (u : Usage)
    (hu : (responses (iteration + 1)).usage = some u)
    (hc : st.total_cost + calculate_cost u DEFAULT_MODEL > cfg.max_cost_per_request) :
    ∃ st', loopAux cfg ask_mode handlers aparse responses (fuel + 1) iteration st lastResp
        = .abort (.costLimit (st.total_cost + calculate_cost u DEFAULT_MODEL)) st'
      ∧ st'.input_list = st.input_list
      ∧ st'.executed = st.executed
      ∧ Ev.costError (st.total_cost + calculate_cost u DEFAULT_MODEL) ∈ st'.trace := by
  have hcp : costPhase cfg st (responses (iteration + 1))
      = .abort (.costLimit (st.total_cost + calculate_cost u DEFAULT_MODEL))
        { st with
          total_input_tokens := st.total_input_tokens + u.input_tokens,
          total_output_tokens := st.total_output_tokens + u.output_tokens,
          total_cached_tokens := st.total_cached_tokens + u.input_tokens_cached,
          total_reasoning_tokens := st.total_reasoning_tokens + u.reasoning_tokens,
          total_cost := st.total_cost + calculate_cost u DEFAULT_MODEL,
          trace := st.trace ++ [.costError (st.total_cost + calculate_cost u DEFAULT_MODEL)] } := by
    unfold costPhase
    rw [hu]
    exact if_pos hc
  refine ⟨{ st with
      total_input_tokens := st.total_input_tokens + u.input_tokens,
      total_output_tokens := st.total_output_tokens + u.output_tokens,
      total_cached_tokens := st.total_cached_tokens + u.input_tokens_cached,
      total_reasoning_tokens := st.total_reasoning_tokens + u.reasoning_tokens,
      total_cost := st.total_cost + calculate_cost u DEFAULT_MODEL,
      trace := st.trace ++ [.costError (st.total_cost + calculate_cost u DEFAULT_MODEL)] },
    ?_, rfl, rfl, ?_⟩
  · simp only [loopAux]
    rw [hcp]
  · simp

/-- Witness for cost_ceiling_aborts_before_dispatch: a first iteration
whose response reports ten million input tokens (12.50 dollars) against
the default 2.00-dollar ceiling. -/
theorem cost_ceiling_aborts_before_dispatch_witness :
    ∃ st', loopAux defaultConfig false normalHandlers demoAparse costCeilResponses 1 0
        (initState "s" [] "q") none
        = .abort (.costLimit ((initState "s" [] "q").total_cost
            + calculate_cost ⟨10000000, 0, 0, 0⟩ DEFAULT_MODEL)) st'
      ∧ st'.input_list = (initState "s" [] "q").input_list
      ∧ st'.executed = (initState "s" [] "q").executed
      ∧ Ev.costError ((initState "s" [] "q").total_cost
          + calculate_cost ⟨10000000, 0, 0, 0⟩ DEFAULT_MODEL) ∈ st'.trace :=
  cost_ceiling_aborts_before_dispatch defaultConfig false normalHandlers demoAparse
    costCeilResponses 0 0 (initState "s" [] "q") none ⟨10000000, 0, 0, 0⟩ rfl
    (by
      have h : (initState "s" [] "q").total_cost
          + calculate_cost ⟨10000000, 0, 0, 0⟩ DEFAULT_MODEL = 25/2 := by
        rw [calculate_cost_ten_million]; simp [initState]
      rw [h]
      show (2 : ℚ) < 25/2
      norm_num)

/-- C3: with the tool-call ceiling lowered to 2 and a response carrying
three tool-call items, the run aborts with the tool-call exception at
count 3 (the third increment), the tool-call error event is traced, and no
handler was executed — in particular neither the third call nor the first
two ever receive a function output, because all counter increments and
ceiling checks happen while scanning the response, before any dispatch. -/
theorem tool_ceiling_three_calls :
    toolCeilRun.abortErr = some (.toolCalls 3)
    ∧ toolCeilRun.state.executed = []
    ∧ toolCeilRun.state.tool_call_count = 3
    ∧ Ev.toolCallError 3 ∈ toolCeilRun.state.trace
    ∧ toolCeilRun.state.input_list.any (resolvesCallId "c1") = false
    ∧ toolCeilRun.state.input_list.any (resolvesCallId "c3") = false := by
  decide

/-- C4 counterexample, three concrete refutations of the claim as stated.
(i) Iteration ceiling: against responses that always carry another tool
call, the default configuration stops after 10 iterations with only a
warning event and returns the last response text as a normal answer — no
distinguishable error is raised and a (partial) answer is returned.
(ii) Usage reporting: a cost-ceiling abort in the first iteration, after
accruing ten million input tokens, reports exactly one event, and that
event carries only the cumulative dollar cost — no reported event carries
the accrued token counts (the Ev payloads mirror the data the console
messages and the raised exception carry), even though the loop state holds
the ten million tokens; accumulated usage is therefore not reported on
abort.
(iii) Exemption: in ask mode with tool-call ceiling 2, three
execute_command calls push the counter to 3, past the ceiling, yet the run
completes normally — the counter itself can exceed the ceiling without an
abort, because the ask-mode branch skips the ceiling check for those
items. -/
theorem ceiling_exceeded_counterexamples :
    (maxIterRun.isAbort = false
      ∧ maxIterRun.answer = some "partial answer"
      ∧ Ev.maxIterWarn ∈ maxIterRun.state.trace
      ∧ maxIterRun.state.tool_call_count = 10)
    ∧ (∃ st', loopAux defaultConfig false normalHandlers demoAparse costCeilResponses 1 0
          (initState "s" [] "q") none
          = .abort (.costLimit ((initState "s" [] "q").total_cost
              + calculate_cost ⟨10000000, 0, 0, 0⟩ DEFAULT_MODEL)) st'
        ∧ st'.trace = [.costError ((initState "s" [] "q").total_cost
            + calculate_cost ⟨10000000, 0, 0, 0⟩ DEFAULT_MODEL)]
        ∧ st'.total_input_tokens = 10000000)
    ∧ (askOverCeilRun.isAbort = false
      ∧ askOverCeilRun.state.tool_call_count = 3
      ∧ toolCeilConfig.max_tool_calls_per_request = 2
      ∧ askOverCeilRun.answer = some "done") := by
  refine ⟨by decide, ?_, by decide⟩
  have hgt : (initState "s" [] "q").total_cost
      + calculate_cost ⟨10000000, 0, 0, 0⟩ DEFAULT_MODEL
      > defaultConfig.max_cost_per_request := by
    rw [calculate_cost_ten_million]
    show (2 : ℚ) < (initState "s" [] "q").total_cost + 25/2
    simp [initState]
    norm_num
  have hcp : costPhase defaultConfig (initState "s" [] "q") (costCeilResponses 1)
      = .abort (.costLimit ((initState "s" [] "q").total_cost
          + calculate_cost ⟨10000000, 0, 0, 0⟩ DEFAULT_MODEL))
        { initState "s" [] "q" with
          total_input_tokens := (initState "s" [] "q").total_input_tokens + 10000000,
          total_output_tokens := (initState "s" [] "q").total_output_tokens + 0,
          total_cached_tokens := (initState "s" [] "q").total_cached_tokens + 0,
          total_reasoning_tokens := (initState "s" [] "q").total_reasoning_tokens + 0,
          total_cost := (initState "s" [] "q").total_cost
            + calculate_cost ⟨10000000, 0, 0, 0⟩ DEFAULT_MODEL,
          trace := (initState "s" [] "q").trace
            ++ [.costError ((initState "s" [] "q").total_cost
                + calculate_cost ⟨10000000, 0, 0, 0⟩ DEFAULT_MODEL)] } := by
    unfold costPhase
    rw [show (costCeilResponses 1).usage = some ⟨10000000, 0, 0, 0⟩ from rfl]
    exact if_pos hgt
  refine ⟨{ initState "s" [] "q" with
      total_input_tokens := (initState "s" [] "q").total_input_tokens + 10000000,
      total_output_tokens := (initState "s" [] "q").total_output_tokens + 0,
      total_cached_tokens := (initState "s" [] "q").total_cached_tokens + 0,
      total_reasoning_tokens := (initState "s" [] "q").total_reasoning_tokens + 0,
      total_cost := (initState "s" [] "q").total_cost
        + calculate_cost ⟨10000000, 0, 0, 0⟩ DEFAULT_MODEL,
      trace := (initState "s" [] "q").trace
        ++ [.costError ((initState "s" [] "q").total_cost
            + calculate_cost ⟨10000000, 0, 0, 0⟩ DEFAULT_MODEL)] }, ?_, ?_, ?_⟩
  · simp only [loopAux]
    rw [hcp]
  · rfl
  · rfl

/-- Any abort produced by the usage/cost phase is a cost-limit exception
with the cost error event traced. -/
theorem costPhase_abortShape (cfg : Config) (st : LoopSt) (resp : Response)
    (e : AbortErr) (s' : LoopSt) (h : costPhase cfg st resp = .abort e s') :
    ∃ c, e = .costLimit c ∧ Ev.costError c ∈ s'.trace := by
  unfold costPhase at h
  cases hu : resp.usage with
  | none => rw [hu] at h; exact absurd h (by simp)
  | some u =>
    rw [hu] at h
    dsimp only at h
    split at h
    · injection h with h1 h2
      exact ⟨_, h1.symm, by subst h2; simp⟩
    · split at h
      · exact absurd h (by simp)
      · exact absurd h (by simp)

/-- Any abort produced by the item scan is a tool-call exception with the
tool-call error event traced. -/
theorem scanItems_abortShape (cfg : Config) (ask_mode : Bool) :
    ∀ (items : List Item) (s : ScanSt) (e : AbortErr) (s' : ScanSt),
      scanItems cfg ask_mode items s = .abort e s' →
      ∃ n, e = .toolCalls n ∧ Ev.toolCallError n ∈ s'.trace := by
  intro items
  induction items with
  | nil => intro s e s' h; exact absurd h (by simp [scanItems])
  | cons it rest ih =>
    intro s e s' h
    cases it with
    | function_call name call_id arguments =>
      simp only [scanItems] at h
      split at h
      · exact ih _ _ _ h
      · split at h
        · injection h with h1 h2
          exact ⟨_, h1.symm, by subst h2; simp⟩
        · exact ih _ _ _ h
    | web_search_call =>
      simp only [scanItems] at h
      split at h
      · injection h with h1 h2
        exact ⟨_, h1.symm, by subst h2; simp⟩
      · exact ih _ _ _ h
    | message => simp only [scanItems] at h; exact ih _ _ _ h
    | reasoning => simp only [scanItems] at h; exact ih _ _ _ h
    | other t => simp only [scanItems] at h; exact ih _ _ _ h

/-- Any abort of the conversation loop is either a cost-limit or a
tool-call exception, with the corresponding error event traced. -/
theorem loopAux_abortShape (cfg : Config) (ask_mode : Bool)
    (handlers : String → Option (String → String)) (aparse : String → AnalyzeOutcome)
    (responses : Nat → Response) :
    ∀ (fuel iteration : Nat) (st : LoopSt) (lastResp : Option Response)
      (e : AbortErr) (st' : LoopSt),
      loopAux cfg ask_mode handlers aparse responses fuel iteration st lastResp = .abort e st' →
      (∃ c, e = .costLimit c ∧ Ev.costError c ∈ st'.trace)
      ∨ (∃ n, e = .toolCalls n ∧ Ev.toolCallError n ∈ st'.trace) := by
  intro fuel
  induction fuel with
  | zero =>
    intro iteration st lastResp e st' h
    simp only [loopAux, finishRun] at h
    cases lastResp <;> simp at h
  | succ fuel ih =>
    intro iteration st lastResp e st' h
    simp only [loopAux] at h
    split at h
    · next e1 s1 heq =>
      injection h with h1 h2
      subst h1; subst h2
      exact Or.inl (costPhase_abortShape _ _ _ _ _ heq)
    · next s1 heq =>
      split at h
      · next e2 ss heq2 =>
        injection h with h1 h2
        subst h1; subst h2
        obtain ⟨n, hn, hm⟩ := scanItems_abortShape cfg ask_mode _ _ _ _ heq2
        exact Or.inr ⟨n, hn, hm⟩
      · next ss heq2 =>
        split at h
        · exact ih _ _ _ _ _ h
        · split at h
          · exact ih _ _ _ _ _ h
          · simp only [finishRun] at h
            simp at h

/-- The usage/cost phase changes neither the executed-handler trace nor
the tool-call counter when it does not abort. -/
theorem costPhase_ok_fields (cfg : Config) (st : LoopSt) (resp : Response) (st1 : LoopSt)
    (h : costPhase cfg st resp = .ok st1) :
    st1.executed = st.executed ∧ st1.tool_call_count = st.tool_call_count := by
  unfold costPhase at h
  cases hu : resp.usage with
  | none =>
    rw [hu] at h
    dsimp only at h
    injection h with h1
    subst h1
    exact ⟨rfl, rfl⟩
  | some u =>
    rw [hu] at h
    dsimp only at h
    split at h
    · exact absurd h (by simp)
    · split at h
      · injection h with h1
        subst h1
        exact ⟨rfl, rfl⟩
      · injection h with h1
        subst h1
        exact ⟨rfl, rfl⟩

/-- If the counter has already reached the ceiling and the items contain
at least one counted tool-call item, the scan aborts with the tool-call
exception (at the first counted item) and traces the tool-call error. -/
theorem scanItems_over_ceiling (cfg : Config) (ask_mode : Bool) :
    ∀ (items : List Item) (s : ScanSt),
      cfg.max_tool_calls_per_request ≤ s.count →
      (∃ x ∈ items, countedToolCall ask_mode x = true) →
      ∃ n s', scanItems cfg ask_mode items s = .abort (.toolCalls n) s'
        ∧ Ev.toolCallError n ∈ s'.trace := by
  intro items
  induction items with
  | nil => intro s _ hex; simp at hex
  | cons it rest ih =>
    intro s hge hex
    cases it with
    | function_call name call_id arguments =>
      by_cases hask : (ask_mode && name = "execute_command") = true
      · obtain ⟨x, hx, hcx⟩ := hex
        rcases List.mem_cons.mp hx with rfl | hx'
        · simp [countedToolCall, hask] at hcx
        · obtain ⟨n, s', hs, hm⟩ :=
            ih { s with
                 flags.has_function_calls := true, count := s.count + 1,
                 made := s.made ++ [name], trace := s.trace ++ [.warnAskBlocked] }
              (by dsimp only; omega) ⟨x, hx', hcx⟩
          refine ⟨n, s', ?_, hm⟩
          simp only [scanItems]
          rw [if_pos hask]
          exact hs
      · refine ⟨s.count + 1,
          { s with
            flags.has_function_calls := true, count := s.count + 1,
            made := s.made ++ [name],
            trace := s.trace ++ [.toolCallError (s.count + 1)] }, ?_, by simp⟩
        simp only [scanItems]
        rw [if_neg hask, if_pos (show ({ s with
            flags.has_function_calls := true,
            count := s.count + 1, made := s.made ++ [name] } : ScanSt).count
            > cfg.max_tool_calls_per_request by dsimp only; omega)]
    | web_search_call =>
      refine ⟨s.count + 1,
        { s with
          flags.has_web_search := true, count := s.count + 1,
          made := s.made ++ ["web_search"],
          trace := s.trace ++ [.toolCallError (s.count + 1)] }, ?_, by simp⟩
      simp only [scanItems]
      rw [if_pos (show ({ s with
          flags.has_web_search := true, count := s.count + 1,
          made := s.made ++ ["web_search"] } : ScanSt).count
          > cfg.max_tool_calls_per_request by dsimp only; omega)]
    | message =>
      obtain ⟨x, hx, hcx⟩ := hex
      rcases List.mem_cons.mp hx with rfl | hx'
      · simp [countedToolCall] at hcx
      · obtain ⟨n, s', hs, hm⟩ := ih { s with flags.has_message := true } hge ⟨x, hx', hcx⟩
        exact ⟨n, s', by simp only [scanItems]; exact hs, hm⟩
    | reasoning =>
      obtain ⟨x, hx, hcx⟩ := hex
      rcases List.mem_cons.mp hx with rfl | hx'
      · simp [countedToolCall] at hcx
      · obtain ⟨n, s', hs, hm⟩ := ih { s with flags.has_reasoning := true } hge ⟨x, hx', hcx⟩
        exact ⟨n, s', by simp only [scanItems]; exact hs, hm⟩
    | other t =>
      obtain ⟨x, hx, hcx⟩ := hex
      rcases List.mem_cons.mp hx with rfl | hx'
      · simp [countedToolCall] at hcx
      · obtain ⟨n, s', hs, hm⟩ := ih s hge ⟨x, hx', hcx⟩
        exact ⟨n, s', by simp only [scanItems]; exact hs, hm⟩

/-- C4 amended: a cumulative cost over the hard ceiling after a usage
update raises the cost-limit error; a tool-call counter at or over its
ceiling raises the tool-call-limit error at the next counted tool-call
item (an execute_command call in ask mode is counted but exempt from the
check); the two errors are distinguishable, an abort carries no answer
data and traces an error event reporting the exceeded quantity (the
cumulative cost, or the tool-call count) — not the accumulated token
usage, whose totals accompany only a normal return; and the iteration
ceiling does not abort: once the iteration budget is exhausted the loop
emits only a warning event and returns the last response text as a normal
answer. -/
theorem ceiling_aborts_and_iteration_warn :
    (∀ (cfg : Config) (ask_mode : Bool) (handlers : String → Option (String → String))
       (aparse : String → AnalyzeOutcome) (responses : Nat → Response)
       (fuel iteration : Nat) (st : LoopSt) (lastResp : Option Response) (u : Usage),
       (responses (iteration + 1)).usage = some u →
       st.total_cost + calculate_cost u DEFAULT_MODEL > cfg.max_cost_per_request →
       ∃ st', loopAux cfg ask_mode handlers aparse responses (fuel + 1) iteration st lastResp
           = .abort (.costLimit (st.total_cost + calculate_cost u DEFAULT_MODEL)) st'
         ∧ Ev.costError (st.total_cost + calculate_cost u DEFAULT_MODEL) ∈ st'.trace
         ∧ st'.executed = st.executed)
    ∧ (∀ (cfg : Config) (ask_mode : Bool) (handlers : String → Option (String → String))
         (aparse : String → AnalyzeOutcome) (responses : Nat → Response)
         (fuel iteration : Nat) (st : LoopSt) (lastResp : Option Response) (st1 : LoopSt),
         costPhase cfg st (responses (iteration + 1)) = .ok st1 →
         cfg.max_tool_calls_per_request ≤ st1.tool_call_count →
         (∃ x ∈ (responses (iteration + 1)).output, countedToolCall ask_mode x = true) →
         ∃ n st', loopAux cfg ask_mode handlers aparse responses (fuel + 1) iteration st lastResp
             = .abort (.toolCalls n) st'
           ∧ Ev.toolCallError n ∈ st'.trace
           ∧ st'.executed = st.executed)
    ∧ (∀ (c : ℚ) (n : Nat), AbortErr.costLimit c ≠ AbortErr.toolCalls n)
    ∧ (∀ (cfg : Config) (ask_mode : Bool) (handlers : String → Option (String → String))
         (aparse : String → AnalyzeOutcome) (responses : Nat → Response)
         (fuel iteration : Nat) (st : LoopSt) (lastResp : Option Response)
         (e : AbortErr) (st' : LoopSt),
         loopAux cfg ask_mode handlers aparse responses fuel iteration st lastResp = .abort e st' →
         (∃ c, e = .costLimit c ∧ Ev.costError c ∈ st'.trace)
         ∨ (∃ n, e = .toolCalls n ∧ Ev.toolCallError n ∈ st'.trace))
    ∧ (∀ (cfg : Config) (ask_mode : Bool) (handlers : String → Option (String → String))
         (aparse : String → AnalyzeOutcome) (responses : Nat → Response)
         (iteration : Nat) (st : LoopSt) (r : Response),
         iteration ≥ cfg.max_iterations →
         loopAux cfg ask_mode handlers aparse responses 0 iteration st (some r)
           = .ok ⟨r.output_text, st.tool_calls_made.dedup, st.total_input_tokens,
                  st.total_output_tokens, st.total_cached_tokens,
                  st.total_reasoning_tokens, st.total_cost⟩
               { st with trace := st.trace ++ [.maxIterWarn] }) := by
  refine ⟨?_, ?_, ?_, ?_, ?_⟩
  · intro cfg ask_mode handlers aparse responses fuel iteration st lastResp u hu hc
    have hcp : costPhase cfg st (responses (iteration + 1))
        = .abort (.costLimit (st.total_cost + calculate_cost u DEFAULT_MODEL))
          { st with
            total_input_tokens := st.total_input_tokens + u.input_tokens,
            total_output_tokens := st.total_output_tokens + u.output_tokens,
            total_cached_tokens := st.total_cached_tokens + u.input_tokens_cached,
            total_reasoning_tokens := st.total_reasoning_tokens + u.reasoning_tokens,
            total_cost := st.total_cost + calculate_cost u DEFAULT_MODEL,
            trace := st.trace ++ [.costError (st.total_cost + calculate_cost u DEFAULT_MODEL)] } := by
      unfold costPhase
      rw [hu]
      exact if_pos hc
    refine ⟨{ st with
        total_input_tokens := st.total_input_tokens + u.input_tokens,
        total_output_tokens := st.total_output_tokens + u.output_tokens,
        total_cached_tokens := st.total_cached_tokens + u.input_tokens_cached,
        total_reasoning_tokens := st.total_reasoning_tokens + u.reasoning_tokens,
        total_cost := st.total_cost + calculate_cost u DEFAULT_MODEL,
        trace := st.trace ++ [.costError (st.total_cost + calculate_cost u DEFAULT_MODEL)] },
      ?_, by simp, rfl⟩
    simp only [loopAux]
    rw [hcp]
  · intro cfg ask_mode handlers aparse responses fuel iteration st lastResp st1 hcost hge hex
    obtain ⟨n, s', hs, hm⟩ := scanItems_over_ceiling cfg ask_mode
      (responses (iteration + 1)).output
      ⟨st1.tool_call_count, st1.tool_calls_made, st1.trace, ⟨false, false, false, false⟩⟩
      hge hex
    refine ⟨n, { st1 with
        input_list := st1.input_list ++ (responses (iteration + 1)).output.map Entry.outItem,
        tool_call_count := s'.count, tool_calls_made := s'.made, trace := s'.trace },
      ?_, hm, ?_⟩
    · simp only [loopAux]
      rw [hcost]
      dsimp only
      rw [hs]
    · exact (costPhase_ok_fields cfg st (responses (iteration + 1)) st1 hcost).1
  · intro c n hcn
    exact AbortErr.noConfusion hcn
  · intro cfg ask_mode handlers aparse responses fuel iteration st lastResp e st' h
    exact loopAux_abortShape cfg ask_mode handlers aparse responses fuel iteration st lastResp e st' h
  · intro cfg ask_mode handlers aparse responses iteration st r hge
    simp only [loopAux, finishRun]
    rw [if_pos hge]

/-- Witness for ceiling_aborts_and_iteration_warn: a concrete cost-ceiling
abort (12.50 dollars against the 2.00 ceiling), a concrete tool-call abort
(counter already at the default ceiling 20 when an ordinary tool call
arrives), and a concrete run at iteration 10 of 10 returning the last
response text normally with the warning event appended. -/
theorem ceiling_aborts_and_iteration_warn_witness :
    (∃ st', loopAux defaultConfig false normalHandlers demoAparse costCeilResponses 1 0
        (initState "s" [] "q") none
        = .abort (.costLimit ((initState "s" [] "q").total_cost
            + calculate_cost ⟨10000000, 0, 0, 0⟩ DEFAULT_MODEL)) st'
      ∧ Ev.costError ((initState "s" [] "q").total_cost
          + calculate_cost ⟨10000000, 0, 0, 0⟩ DEFAULT_MODEL) ∈ st'.trace
      ∧ st'.executed = (initState "s" [] "q").executed)
    ∧ (∃ n st', loopAux defaultConfig false normalHandlers demoAparse overCeilStepResponses 1 0
        overCeilState none = .abort (.toolCalls n) st'
      ∧ Ev.toolCallError n ∈ st'.trace
      ∧ st'.executed = overCeilState.executed)
    ∧ loopAux defaultConfig false (fun _ => none) demoAparse (fun _ => Response.mk [] none "hello")
        0 10 (initState "s" [] "q") (some (Response.mk [] none "hello"))
      = .ok ⟨"hello", [], 0, 0, 0, 0, 0⟩
          { initState "s" [] "q" with trace := [Ev.maxIterWarn] } := by
  refine ⟨?_, ?_, ?_⟩
  · exact ceiling_aborts_and_iteration_warn.1 defaultConfig false normalHandlers demoAparse
      costCeilResponses 0 0 (initState "s" [] "q") none ⟨10000000, 0, 0, 0⟩ rfl
      (by
        rw [calculate_cost_ten_million]
        show (2 : ℚ) < (initState "s" [] "q").total_cost + 25/2
        simp [initState]
        norm_num)
  · exact ceiling_aborts_and_iteration_warn.2.1 defaultConfig false normalHandlers demoAparse
      overCeilStepResponses 0 0 overCeilState none overCeilState rfl (by decide)
      ⟨.function_call "fetch_webpage" "w1" "\x7b\x7d", by decide, by decide⟩
  · have h := ceiling_aborts_and_iteration_warn.2.2.2.2 defaultConfig false (fun _ => none)
      demoAparse (fun _ => Response.mk [] none "hello") 10 (initState "s" [] "q")
      (Response.mk [] none "hello") (by decide)
    simpa [initState] using h

/-- Python slicing never yields more than n characters. -/
theorem pyTake_length_le (s : String) (n : Nat) : (pyTake s n).length ≤ n := by
  show (s.data.take n).length ≤ n
  rw [List.length_take]
  exact min_le_left _ _

/-- Python slicing of a short enough string is the string itself. -/
theorem pyTake_of_length_le (s : String) (n : Nat) (h : s.length ≤ n) : pyTake s n = s := by
  show String.mk (s.data.take n) = s
  rw [List.take_of_length_le h]

/-- Python slicing with a positive bound is empty only for the empty
string. -/
theorem pyTake_eq_empty_iff (s : String) (n : Nat) (hn : 0 < n) :
    (pyTake s n = "") ↔ s = "" := by
  cases s with
  | mk data =>
    show (String.mk (data.take n) = String.mk []) ↔ (String.mk data = String.mk [])
    simp only [String.ext_iff, List.take_eq_nil_iff]
    simp [Nat.pos_iff_ne_zero.mp hn]

/-- C8: every command classified interactive is refused unconditionally by
execute_command: no confirmation prompt is shown and no subprocess is
spawned for any environment, working directory or timeout, and whenever
the working directory resolves, the returned result is the refusal text
embedding the classifier reason (which names the offending program and a
non-interactive replacement). -/
theorem interactive_refused_unconditionally
    (env : ExecEnv) (command : String) (working_dir : Option String) (timeout : Option Int)
    (reason : Option String)
    (h : classify_command_risk command = ("interactive", reason)) :
    (execute_command env command working_dir timeout).prompts = []
    ∧ (execute_command env command working_dir timeout).spawns = []
    ∧ ((working_dir = none ∨ ∃ w, working_dir = some w ∧ env.isdir (env.expanduser w) = true) →
       (execute_command env command working_dir timeout).result
         = "❌ Error: Interactive command detected\n\nCommand: " ++ command
           ++ "\n\nReason: " ++ optStr reason
           ++ "\n\n💡 This command requires user input during execution, which is not supported. Please use the suggested non-interactive alternative.") := by
  cases working_dir with
  | none =>
    refine ⟨?_, ?_, fun _ => ?_⟩ <;>
      simp [execute_command, resolve_working_dir, h]
  | some w =>
    by_cases hd : env.isdir (env.expanduser w)
    · refine ⟨?_, ?_, fun _ => ?_⟩ <;>
        simp [execute_command, resolve_working_dir, h, hd]
    · refine ⟨?_, ?_, ?_⟩
      · simp [execute_command, resolve_working_dir, hd]
      · simp [execute_command, resolve_working_dir, hd]
      · intro hcase
        rcases hcase with hnone | ⟨w', hw', hdir⟩
        · exact absurd hnone (by simp)
        · rw [Option.some.injEq] at hw'
          exact absurd (hw' ▸ hdir) hd

/-- Witness for interactive_refused_unconditionally at vim file.txt: the
refusal result names vim and the sed replacement. -/
theorem interactive_refused_unconditionally_witness :
    (execute_command demoExecEnv "vim file.txt" none none).prompts = []
    ∧ (execute_command demoExecEnv "vim file.txt" none none).spawns = []
    ∧ (execute_command demoExecEnv "vim file.txt" none none).result
        = "❌ Error: Interactive command detected\n\nCommand: vim file.txt\n\nReason: "
          ++ editorReason "vim"
          ++ "\n\n💡 This command requires user input during execution, which is not supported. Please use the suggested non-interactive alternative." := by
  have h := interactive_refused_unconditionally demoExecEnv "vim file.txt" none none
    (some (editorReason "vim")) (by decide)
  exact ⟨h.1, h.2.1, (h.2.2 (Or.inl rfl)).trans (by decide)⟩

/-- The clamped timeout execute_command works with, on every path. -/
theorem execute_command_effTimeout (env : ExecEnv) (command : String)
    (working_dir : Option String) (timeout : Option Int) :
    (execute_command env command working_dir timeout).effTimeout
      = (match timeout with
         | none => (30 : Int)
         | some v => if v > 300 then 300 else v) := by
  unfold execute_command exec_spawned
  cases timeout <;>
    · dsimp only
      split
      · rfl
      · split
        · rfl
        · split
          · split
            · rfl
            · rfl
          · rfl

/-- Every subprocess spawn of execute_command uses the clamped timeout. -/
theorem execute_command_spawn_timeout (env : ExecEnv) (command : String)
    (working_dir : Option String) (timeout : Option Int) :
    ∀ x ∈ (execute_command env command working_dir timeout).spawns,
      x.2.2 = (execute_command env command working_dir timeout).effTimeout := by
  unfold execute_command exec_spawned
  cases timeout <;>
    · dsimp only
      split
      · intro x hx; exact absurd hx (by simp)
      · split
        · intro x hx; exact absurd hx (by simp)
        · split
          · split
            · intro x hx
              rw [List.mem_singleton] at hx
              subst hx; rfl
            · intro x hx; exact absurd hx (by simp)
          · intro x hx
            rw [List.mem_singleton] at hx
            subst hx; rfl

/-- C9: the effective timeout of every execute_command call is clamped: a
missing timeout becomes 30 seconds, a value above 300 becomes exactly 300,
a value between 1 and 300 is used unchanged, and any spawned subprocess is
given exactly that effective timeout. -/
theorem timeout_clamped (env : ExecEnv) (command : String)
    (working_dir : Option String) (timeout : Option Int) :
    (timeout = none → (execute_command env command working_dir timeout).effTimeout = 30)
    ∧ (∀ v, timeout = some v → 300 < v →
        (execute_command env command working_dir timeout).effTimeout = 300)
    ∧ (∀ v, timeout = some v → 1 ≤ v → v ≤ 300 →
        (execute_command env command working_dir timeout).effTimeout = v)
    ∧ (∀ c w tm, (c, w, tm) ∈ (execute_command env command working_dir timeout).spawns →
        tm = (execute_command env command working_dir timeout).effTimeout) := by
  refine ⟨?_, ?_, ?_, ?_⟩
  · intro ht; subst ht
    rw [execute_command_effTimeout]
  · intro v ht hv; subst ht
    rw [execute_command_effTimeout]
    exact if_pos hv
  · intro v ht _ h2; subst ht
    rw [execute_command_effTimeout]
    exact if_neg (by omega)
  · intro c w tm hmem
    exact execute_command_spawn_timeout env command working_dir timeout (c, w, tm) hmem

/-- Witness for timeout_clamped: a missing timeout becomes 30, 500 is
clamped to 300, and 120 passes through. -/
theorem timeout_clamped_witness :
    (execute_command demoExecEnv "ls -la" none none).effTimeout = 30
    ∧ (execute_command demoExecEnv "ls -la" none (some 500)).effTimeout = 300
    ∧ (execute_command demoExecEnv "ls -la" none (some 120)).effTimeout = 120 :=
  ⟨(timeout_clamped demoExecEnv "ls -la" none none).1 rfl,
   (timeout_clamped demoExecEnv "ls -la" none (some 500)).2.1 500 rfl (by norm_num),
   (timeout_clamped demoExecEnv "ls -la" none (some 120)).2.2.1 120 rfl (by norm_num) (by norm_num)⟩

/-- On the safe path with a resolving working directory, the result comes
from the spawned subprocess with the clamped timeout. -/
theorem execute_command_safe (env : ExecEnv) (command : String)
    (working_dir : Option String) (timeout : Option Int) (wdir : String)
    (hsafe : (classify_command_risk command).1 = "safe")
    (hdir : resolve_working_dir env working_dir = some wdir) :
    (execute_command env command working_dir timeout).result
      = run_subprocess env command wdir
          (match timeout with
           | none => (30 : Int)
           | some v => if v > 300 then 300 else v) := by
  unfold execute_command
  simp only [hdir]
  simp [hsafe, exec_spawned]

/-- The formatted result of a completed subprocess: each stream appears
as its first 10000 characters, with the truncation notice exactly when the
stream was longer, and the error rewrite applied for nonzero exit codes. -/
theorem run_subprocess_completed (env : ExecEnv) (command wd : String) (t : Int)
    (sout serr : String) (ec : Int) (hrun : env.run = .completed sout serr ec) :
    run_subprocess env command wd t
      = (let body := "✓ Command executed successfully\n\n"
            ++ "Command: " ++ command ++ "\n"
            ++ "Working directory: " ++ wd ++ "\n"
            ++ "Exit code: " ++ toString ec ++ "\n"
            ++ "Duration: " ++ env.durationStr ++ "s\n"
            ++ dashes80 ++ "\n\n"
            ++ (if sout = "" then "" else
                 "STDOUT:\n" ++ pyTake sout 10000
                   ++ (if sout.length > 10000 then trunc_notice else "") ++ "\n\n")
            ++ (if serr = "" then "" else
                 "STDERR:\n" ++ pyTake serr 10000
                   ++ (if serr.length > 10000 then trunc_notice else "") ++ "\n\n")
            ++ (if sout = "" ∧ serr = "" then "(No output)\n\n" else "")
         if ec ≠ 0 then
           body.replace "✓ Command executed successfully" "⚠️  Command completed with errors"
             ++ "💡 Note: Command exited with code " ++ toString ec
             ++ ", which typically indicates an error.\n"
         else body) := by
  unfold run_subprocess
  rw [hrun]
  by_cases hso : sout.length > 10000 <;> by_cases hse : serr.length > 10000
  · simp [hso, hse, pyTake_eq_empty_iff sout 10000 (by norm_num),
      pyTake_eq_empty_iff serr 10000 (by norm_num)]
  · simp [hso, hse, pyTake_eq_empty_iff sout 10000 (by norm_num),
      pyTake_of_length_le serr 10000 (by omega)]
  · simp [hso, hse, pyTake_of_length_le sout 10000 (by omega),
      pyTake_eq_empty_iff serr 10000 (by norm_num)]
  · simp [hso, hse, pyTake_of_length_le sout 10000 (by omega),
      pyTake_of_length_le serr 10000 (by omega)]

/-- C10: for every completed execution of a safe command with a resolving
working directory, the returned result embeds each stream as exactly its
first 10000 characters (a prefix of length at most 10000), appends the
truncation notice precisely when the stream exceeded 10000 characters, and
applies the nonzero-exit rewrite around the assembled body. -/
theorem completed_output_truncated (env : ExecEnv) (command : String)
    (working_dir : Option String) (timeout : Option Int)
    (wdir sout serr : String) (ec : Int)
    (hsafe : classify_command_risk command = ("safe", none))
    (hdir : resolve_working_dir env working_dir = some wdir)
    (hrun : env.run = .completed sout serr ec) :
    (execute_command env command working_dir timeout).result
      = (let body := "✓ Command executed successfully\n\n"
            ++ "Command: " ++ command ++ "\n"
            ++ "Working directory: " ++ wdir ++ "\n"
            ++ "Exit code: " ++ toString ec ++ "\n"
            ++ "Duration: " ++ env.durationStr ++ "s\n"
            ++ dashes80 ++ "\n\n"
            ++ (if sout = "" then "" else
                 "STDOUT:\n" ++ pyTake sout 10000
                   ++ (if sout.length > 10000 then trunc_notice else "") ++ "\n\n")
            ++ (if serr = "" then "" else
                 "STDERR:\n" ++ pyTake serr 10000
                   ++ (if serr.length > 10000 then trunc_notice else "") ++ "\n\n")
            ++ (if sout = "" ∧ serr = "" then "(No output)\n\n" else "")
         if ec ≠ 0 then
           body.replace "✓ Command executed successfully" "⚠️  Command completed with errors"
             ++ "💡 Note: Command exited with code " ++ toString ec
             ++ ", which typically indicates an error.\n"
         else body)
    ∧ (pyTake sout 10000).length ≤ 10000
    ∧ (pyTake serr 10000).length ≤ 10000 := by
  refine ⟨?_, pyTake_length_le sout 10000, pyTake_length_le serr 10000⟩
  have hs : (classify_command_risk command).1 = "safe" := by rw [hsafe]
  rw [execute_command_safe env command working_dir timeout wdir hs hdir,
      run_subprocess_completed env command wdir _ sout serr ec hrun]

/-- Witness for completed_output_truncated: ls -la completing with stdout
hello and exit code 0. -/
theorem completed_output_truncated_witness :
    (execute_command demoExecEnv "ls -la" none none).result
      = "✓ Command executed successfully\n\n"
        ++ "Command: " ++ "ls -la" ++ "\n"
        ++ "Working directory: " ++ "/home/user" ++ "\n"
        ++ "Exit code: " ++ toString (0 : Int) ++ "\n"
        ++ "Duration: " ++ "0.00" ++ "s\n"
        ++ dashes80 ++ "\n\n"
        ++ "STDOUT:\nhello\n\n" := by
  have h := completed_output_truncated demoExecEnv "ls -la" none none "/home/user"
    "hello" "" 0 (by decide) rfl rfl
  rw [h.1]
  decide

end AITool
